import Mathlib

/-!
Verification development for a school-exam web application.

The development shallowly embeds the TypeScript source:
  * `src/lib/auth.ts`  — credential/token helpers, role predicates, policy
    functions (`canAccessExam`, `canManageExam`), input validators and
    `authenticateUser`;
  * `src/lib/db.ts`    — the SQLite schema and prepared queries, modelled as
    pure functions over an explicit `DB` state (lists of rows plus
    AUTOINCREMENT counters);
  * `src/app/api/auth/route.ts`  — the login / register / verify dispatcher;
  * `src/app/api/exams/[id]/route.ts` — the GET (fetch exam), POST (start
    attempt) and PUT (submit attempt) handlers, including the scoring loop
    and `getGrade`.

Machine numbers are modelled as `Nat`/`Int`; the floating-point percentage
arithmetic is modelled in `ℚ` (all quantities involved are exact). External
libraries (bcrypt, jsonwebtoken, Math.random) are parameters of the
functions that use them.
-/

namespace ExamApp

/-- User roles, from the `role` CHECK constraint in `src/lib/db.ts`. -/
inductive Role where
  | admin
  | teacher
  | student
deriving DecidableEq, Repr

/-- A stored user row (`users` table / `User` in `src/types/exam.ts`).
`password` holds the bcrypt hash. `cls` models the optional `class` column
(`class` is a reserved word in Lean). -/
structure UserRec where
  id : Nat
  username : String
  email : String
  password : String
  role : Role
  fullName : String
  cls : Option String
  subject : Option String
deriving DecidableEq, Repr

/-- A user with the password removed (`Omit<User, 'password'>`), as produced
by `sanitizeUser` and returned by `authenticateUser` / `getUserFromToken`. -/
structure UserView where
  id : Nat
  username : String
  email : String
  role : Role
  fullName : String
  cls : Option String
  subject : Option String
deriving DecidableEq, Repr

/-- `sanitizeUser` from `src/lib/auth.ts`: drop the password field. -/
def sanitizeUser (u : UserRec) : UserView :=
  ⟨u.id, u.username, u.email, u.role, u.fullName, u.cls, u.subject⟩

/-- `isAdmin` from `src/lib/auth.ts`. -/
def isAdmin (u : UserView) : Bool := u.role = Role.admin

/-- `isTeacher` from `src/lib/auth.ts`. -/
def isTeacher (u : UserView) : Bool := u.role = Role.teacher

/-- `isStudent` from `src/lib/auth.ts`. -/
def isStudent (u : UserView) : Bool := u.role = Role.student

/-- `canAccessExam(user, teacherId?)` from `src/lib/auth.ts`.  The optional
`teacherId` parameter is modelled as `Option Nat`; the JS comparison
`teacherId === user.id` is false when `teacherId` is `undefined`. -/
def canAccessExam (u : UserView) (teacherId : Option Nat) : Bool :=
  if isAdmin u then true
  else if isTeacher u ∧ teacherId = some u.id then true
  else if isStudent u then true
  else false

/-- `canManageExam(user, teacherId?)` from `src/lib/auth.ts`. -/
def canManageExam (u : UserView) (teacherId : Option Nat) : Bool :=
  if isAdmin u then true
  else if isTeacher u ∧ teacherId = some u.id then true
  else false

/-- An exam row (`exams` table / `Exam` in `src/types/exam.ts`).  Times are
epoch instants (`Int`); `passingScore` is a percentage, kept in `ℚ` because
it is compared against the computed percentage. -/
structure Exam where
  id : Nat
  title : String
  description : String
  subject : String
  teacherId : Nat
  duration : Nat
  totalQuestions : Nat
  passingScore : ℚ
  startTime : Int
  endTime : Int
  isActive : Bool
  allowReview : Bool
  shuffleQuestions : Bool
deriving DecidableEq, Repr

/-- Question types, from the `questionType` CHECK constraint. -/
inductive QType where
  | multiple_choice
  | true_false
  | essay
deriving DecidableEq, Repr

/-- A question row (`questions` table).  `options` is stored as a JSON
string in SQLite and parsed on read; it is modelled directly as the parsed
list. -/
structure Question where
  id : Nat
  examId : Nat
  questionText : String
  questionType : QType
  options : List String
  correctAnswer : String
  points : Nat
  explanation : Option String
  imageUrl : Option String
  order : Nat
deriving DecidableEq, Repr

/-- Attempt states, from the `status` CHECK constraint on `exam_attempts`. -/
inductive AttStatus where
  | in_progress
  | completed
  | abandoned
  | time_out
deriving DecidableEq, Repr

/-- An attempt row (`exam_attempts` table). -/
structure Attempt where
  id : Nat
  examId : Nat
  studentId : Nat
  startTime : Int
  endTime : Option Int
  status : AttStatus
  score : Option Nat
  totalPoints : Option Nat
  percentage : Option ℚ
  timeSpent : Nat
  ipAddress : String
  userAgent : String
deriving DecidableEq, Repr

/-- An answer row (`exam_answers` table); the AUTOINCREMENT id is not used
by any handler and is left out. -/
structure AnswerRow where
  attemptId : Nat
  questionId : Nat
  answer : String
  isCorrect : Bool
  pointsEarned : Nat
  timeSpent : Nat
deriving DecidableEq, Repr

/-- A result row (`exam_results` table). -/
structure ResultRow where
  id : Nat
  attemptId : Nat
  studentId : Nat
  examId : Nat
  score : Nat
  totalPoints : Nat
  percentage : ℚ
  grade : String
  passed : Bool
  completionTime : Nat
  correctAnswers : Nat
  wrongAnswers : Nat
  skippedAnswers : Nat
  feedback : String
deriving DecidableEq, Repr

/-- The record store: the tables of `src/lib/db.ts` plus the AUTOINCREMENT
counters that supply fresh row ids. -/
structure DB where
  users : List UserRec
  exams : List Exam
  questions : List Question
  attempts : List Attempt
  answers : List AnswerRow
  results : List ResultRow
  nextUserId : Nat
  nextAttemptId : Nat
  nextResultId : Nat
deriving DecidableEq, Repr

/-- `userQueries.findByUsername`: `SELECT * FROM users WHERE username = ?`
(`.get` returns the first matching row). -/
def findByUsername (db : DB) (username : String) : Option UserRec :=
  (db.users.filter (fun u => u.username = username)).head?

/-- `userQueries.findByEmail`: `SELECT * FROM users WHERE email = ?`. -/
def findByEmail (db : DB) (email : String) : Option UserRec :=
  (db.users.filter (fun u => u.email = email)).head?

/-- `userQueries.findById`: `SELECT * FROM users WHERE id = ?`. -/
def userFindById (db : DB) (id : Nat) : Option UserRec :=
  (db.users.filter (fun u => u.id = id)).head?

/-- `examQueries.findById`: `SELECT * FROM exams WHERE id = ?`. -/
def examFindById (db : DB) (id : Nat) : Option Exam :=
  (db.exams.filter (fun e => e.id = id)).head?

/-- Insertion step of `sortByOrder`. -/
def insertByOrder (q : Question) : List Question → List Question
  | [] => [q]
  | p :: ps => if q.order ≤ p.order then q :: p :: ps else p :: insertByOrder q ps

/-- Stable sort on the `order` column, modelling the `ORDER BY "order"` of
`questionQueries.findByExam`. -/
def sortByOrder : List Question → List Question
  | [] => []
  | q :: qs => insertByOrder q (sortByOrder qs)

/-- `questionQueries.findByExam`:
`SELECT * FROM questions WHERE examId = ? ORDER BY "order"`. -/
def questionsFindByExam (db : DB) (examId : Nat) : List Question :=
  sortByOrder (db.questions.filter (fun q => q.examId = examId))

/-- `attemptQueries.findById`: `SELECT * FROM exam_attempts WHERE id = ?`. -/
def attemptFindById (db : DB) (id : Nat) : Option Attempt :=
  (db.attempts.filter (fun a => a.id = id)).head?

/-- `attemptQueries.findByStudentAndExam`:
`SELECT * FROM exam_attempts WHERE studentId = ? AND examId = ?`.
Note: no condition on `status`. -/
def findByStudentAndExam (db : DB) (studentId examId : Nat) : Option Attempt :=
  (db.attempts.filter (fun a => a.studentId = studentId ∧ a.examId = examId)).head?

/-- `resultQueries.findByAttempt`:
`SELECT * FROM exam_results WHERE attemptId = ?`. -/
def resultFindByAttempt (db : DB) (attemptId : Nat) : Option ResultRow :=
  (db.results.filter (fun r => r.attemptId = attemptId)).head?

/-- The row-local constraints the `exam_attempts` CREATE TABLE statement
places on an inserted row (`src/lib/db.ts` lines 71-90): the CHECK on
`status` (the typed field satisfies it by construction) and the NOT NULL
columns (non-optional fields by construction).  The schema declares no
UNIQUE constraint on (`examId`, `studentId`), so the predicate does not
look at any other row. -/
def attemptRowSchemaOk (_row : Attempt) : Bool := true

/-- `attemptQueries.createAttempt`:
`INSERT INTO exam_attempts (examId, studentId, startTime, ipAddress,
userAgent) VALUES (?, ?, ?, ?, ?)` — the persistence-layer insert.  It
accepts any row passing the row-local schema constraints; the defaulted
columns (`status` = `in_progress`, `timeSpent` = 0, NULL score fields) come
from the table defaults.  Returns the new state and `lastInsertRowid`. -/
def createAttempt (db : DB) (examId studentId : Nat) (startTime : Int)
    (ip ua : String) : DB × Nat :=
  let row : Attempt :=
    ⟨db.nextAttemptId, examId, studentId, startTime, none, AttStatus.in_progress,
      none, none, none, 0, ip, ua⟩
  if attemptRowSchemaOk row then
    ({ db with attempts := db.attempts ++ [row],
               nextAttemptId := db.nextAttemptId + 1 }, db.nextAttemptId)
  else (db, 0)

/-- `attemptQueries.updateAttempt`:
`UPDATE exam_attempts SET endTime = ?, status = ?, score = ?, totalPoints = ?,
percentage = ?, timeSpent = ? ... WHERE id = ?`. -/
def updateAttempt (db : DB) (endTime : Int) (status : AttStatus) (score : Nat)
    (totalPoints : Nat) (percentage : ℚ) (timeSpent : Nat) (id : Nat) : DB :=
  { db with attempts := db.attempts.map (fun a =>
      if a.id = id then
        { a with endTime := some endTime, status := status, score := some score,
                 totalPoints := some totalPoints, percentage := some percentage,
                 timeSpent := timeSpent }
      else a) }

/-- `answerQueries.createAnswer`:
`INSERT INTO exam_answers (attemptId, questionId, answer, isCorrect,
pointsEarned, timeSpent) VALUES (?, ?, ?, ?, ?, ?)`. -/
def createAnswer (db : DB) (row : AnswerRow) : DB :=
  { db with answers := db.answers ++ [row] }

/-- `resultQueries.createResult`: the 13-column insert into `exam_results`.
Returns the new state and `lastInsertRowid`. -/
def createResult (db : DB) (attemptId studentId examId score totalPoints : Nat)
    (percentage : ℚ) (grade : String) (passed : Bool) (completionTime : Nat)
    (correctAnswers wrongAnswers skippedAnswers : Nat) (feedback : String) :
    DB × Nat :=
  let row : ResultRow :=
    ⟨db.nextResultId, attemptId, studentId, examId, score, totalPoints,
      percentage, grade, passed, completionTime, correctAnswers, wrongAnswers,
      skippedAnswers, feedback⟩
  ({ db with results := db.results ++ [row],
             nextResultId := db.nextResultId + 1 }, db.nextResultId)

/-- The payload `generateToken` embeds (`JWTPayload` in `src/lib/auth.ts`):
userId, username, role.  Signing and the issued-at/expiry fields are done by
the external `jsonwebtoken` library and are not modelled. -/
structure JWTPayload where
  userId : Nat
  username : String
  role : Role
deriving DecidableEq, Repr

/-- `generateToken` from `src/lib/auth.ts`, up to the external signature. -/
def generateToken (u : UserView) : JWTPayload :=
  ⟨u.id, u.username, u.role⟩

/-- The shape of `AuthResponse` (`src/types/exam.ts`): success flag, message,
optional sanitized user and token. -/
structure AuthResp where
  success : Bool
  message : String
  user : Option UserView
  token : Option JWTPayload
deriving DecidableEq, Repr

/-- `authenticateUser` from `src/lib/auth.ts`.  `cmp` stands for bcrypt's
`comparePassword(plaintext, hash)`.  The JS falsy test `!username ||
!password` holds for the empty string. -/
def authenticateUser (db : DB) (cmp : String → String → Bool)
    (username password : String) : AuthResp :=
  if username = "" ∨ password = "" then
    ⟨false, "Username and password are required", none, none⟩
  else
    match findByUsername db username with
    | none => ⟨false, "Invalid username or password", none, none⟩
    | some user =>
      if ¬ cmp password user.password then
        ⟨false, "Invalid username or password", none, none⟩
      else
        let userWithoutPassword := sanitizeUser user
        ⟨true, "Login successful", some userWithoutPassword,
          some (generateToken userWithoutPassword)⟩

/-- `handleLogin` from `src/app/api/auth/route.ts`: wraps `authenticateUser`,
returning HTTP 200 (plus the auth cookie, not modelled) on success and 401
on failure. -/
def handleLogin (db : DB) (cmp : String → String → Bool)
    (username password : String) : Nat × AuthResp :=
  let result := authenticateUser db cmp username password
  if result.success then (200, result) else (401, result)

/-- `validatePassword` from `src/lib/auth.ts`: the accumulated error list
(`isValid` is `errors = []`).  `/[A-Za-z]/` and `/[0-9]/` are the ASCII
letter and digit tests. -/
def passwordErrors (password : String) : List String :=
  (if password.length < 6 then ["Password must be at least 6 characters long"] else []) ++
  (if password.toList.any (fun c => c.isAlpha) then []
   else ["Password must contain at least one letter"]) ++
  (if password.toList.any (fun c => c.isDigit) then []
   else ["Password must contain at least one number"])

/-- A character admitted by `[^\s@]` in the email regular expression: not
`@` and not whitespace (the common whitespace characters of JS `\s`). -/
def emailCharOk (c : Char) : Bool := ¬ (c = '@' ∨ c.isWhitespace)

/-- `validateEmail` from `src/lib/auth.ts`: the string matches
`^[^\s@]+@[^\s@]+\.[^\s@]+$`, i.e. it splits as `X ++ "@" ++ Y ++ "." ++ Z`
with `X`, `Y`, `Z` nonempty strings of `[^\s@]` characters (the existential
over the split positions mirrors the regex's backtracking). -/
def validateEmail (s : String) : Bool :=
  let l := s.toList
  let n := l.length
  (List.range n).any (fun i => (List.range n).any (fun j =>
    1 ≤ i ∧ i + 2 ≤ j ∧ j + 2 ≤ n ∧
    l.getD i ' ' = '@' ∧ l.getD j ' ' = '.' ∧
    (List.range n).all (fun k => k = i ∨ emailCharOk (l.getD k ' '))))

/-- A character admitted by `[a-zA-Z0-9_]` in the username regular
expression. -/
def usernameCharOk (c : Char) : Bool := c.isAlpha ∨ c.isDigit ∨ c = '_'

/-- `validateUsername` from `src/lib/auth.ts`: the accumulated error list
(`isValid` is `errors = []`). -/
def usernameErrors (username : String) : List String :=
  (if username.length < 3 then ["Username must be at least 3 characters long"] else []) ++
  (if username.length > 20 then ["Username must be less than 20 characters"] else []) ++
  (if username.toList ≠ [] ∧ username.toList.all usernameCharOk then []
   else ["Username can only contain letters, numbers, and underscores"])

/-- The body of a registration request (`handleRegister`'s `data` argument in
`src/app/api/auth/route.ts`).  The TypeScript annotation says the role is
`'teacher' | 'student'`, but nothing checks it at runtime, so it is modelled
as an arbitrary `Role`. -/
structure RegisterData where
  username : String
  email : String
  password : String
  role : Role
  fullName : String
  cls : Option String
  subject : Option String
deriving DecidableEq, Repr

/-- A registration response: HTTP status, envelope fields, and the created
user id on success. -/
structure RegResp where
  status : Nat
  success : Bool
  message : String
  errors : List String
  userId : Option Nat
deriving DecidableEq, Repr

/-- `handleRegister` from `src/app/api/auth/route.ts`.  `hash` stands for
bcrypt's `hashPassword`.  Checks run in source order: username format, email
format, password format, username collision, email collision; then the user
row is inserted with the role taken from the request body.  The
`SQLITE_CONSTRAINT_UNIQUE` catch is unreachable here because the model's
insert always succeeds after the two collision checks. -/
def handleRegister (db : DB) (hash : String → String) (d : RegisterData) :
    RegResp × DB :=
  if usernameErrors d.username ≠ [] then
    (⟨400, false, "Username validation failed", usernameErrors d.username, none⟩, db)
  else if ¬ validateEmail d.email then
    (⟨400, false, "Invalid email format", [], none⟩, db)
  else if passwordErrors d.password ≠ [] then
    (⟨400, false, "Password validation failed", passwordErrors d.password, none⟩, db)
  else if (findByUsername db d.username).isSome then
    (⟨409, false, "Username already exists", [], none⟩, db)
  else if (findByEmail db d.email).isSome then
    (⟨409, false, "Email already exists", [], none⟩, db)
  else
    let row : UserRec :=
      ⟨db.nextUserId, d.username, d.email, hash d.password, d.role, d.fullName,
        d.cls, d.subject⟩
    (⟨200, true, "User created successfully", [], some db.nextUserId⟩,
      { db with users := db.users ++ [row], nextUserId := db.nextUserId + 1 })

/-- The `action === 'register'` branch of `POST /api/auth`
(`src/app/api/auth/route.ts`): the dispatcher destructures the parsed JSON
body and forwards it to `handleRegister`.  The request's `Authorization`
header and `auth-token` cookie are taken as explicit arguments to record
that the branch never reads them: no `getUserFromToken` or role check occurs
on this path. -/
def postRegister (authHeaderToken cookieToken : Option String) (db : DB)
    (hash : String → String) (d : RegisterData) : RegResp × DB :=
  handleRegister db hash d

/-- A JSON value sitting in the submitted `answers` map (string or number);
`toStr` is JS `toString()` (exact for integers). -/
inductive JsVal where
  | str (s : String)
  | num (n : Int)
deriving DecidableEq, Repr

/-- JS `toString()` on an answers-map value. -/
def JsVal.toStr : JsVal → String
  | .str s => s
  | .num n => toString n

/-- The question object sent back to a caller.  The handlers build it either
by listing the public fields (students: `correctAnswer`/`explanation`
omitted, modelled as `none`) or by spreading the full row. -/
structure QuestionView where
  id : Nat
  questionText : String
  questionType : QType
  options : List String
  points : Nat
  imageUrl : Option String
  order : Nat
  correctAnswer : Option String
  explanation : Option String
deriving DecidableEq, Repr

/-- The student-facing projection used by GET (student branch) and POST:
`{id, questionText, questionType, options, points, imageUrl, order}` — no
correct answer, no explanation. -/
def stripQuestion (q : Question) : QuestionView :=
  ⟨q.id, q.questionText, q.questionType, q.options, q.points, q.imageUrl,
    q.order, none, none⟩

/-- The teacher/admin projection used by GET: `{...q}` with options parsed —
every column, the correct answer included. -/
def fullQuestion (q : Question) : QuestionView :=
  ⟨q.id, q.questionText, q.questionType, q.options, q.points, q.imageUrl,
    q.order, some q.correctAnswer, q.explanation⟩

/-- Response of `GET /api/exams/[id]`. -/
structure GetResponse where
  status : Nat
  success : Bool
  message : String
  exam : Option Exam
  questions : Option (List QuestionView)
deriving DecidableEq, Repr

/-- The GET handler of `src/app/api/exams/[id]/route.ts`: fetch an exam,
optionally with its questions.  `includeQuestions` and `includeAnswers` are
the caller-supplied query parameters (`=== 'true'` already decoded);
`user` is the identity resolved from the token (`none` when absent or
invalid). -/
def getExam (db : DB) (user : Option UserView) (examId : Nat)
    (includeQuestions includeAnswers : Bool) : GetResponse :=
  match user with
  | none => ⟨401, false, "Authentication required", none, none⟩
  | some u =>
    match examFindById db examId with
    | none => ⟨404, false, "Exam not found", none, none⟩
    | some exam =>
      if ¬ canAccessExam u (some exam.teacherId) then
        ⟨403, false, "Unauthorized to access this exam", none, none⟩
      else
        let questions := questionsFindByExam db examId
        let qviews : Option (List QuestionView) :=
          if includeQuestions then
            if u.role = Role.student ∧ ¬ includeAnswers then
              some (questions.map stripQuestion)
            else
              some (questions.map fullQuestion)
          else none
        ⟨200, true, "Exam retrieved successfully", some exam, qviews⟩

/-- Response of `POST /api/exams/[id]` (start attempt). -/
structure StartResponse where
  status : Nat
  success : Bool
  message : String
  attemptId : Option Nat
  questions : Option (List QuestionView)
deriving DecidableEq, Repr

/-- The POST handler of `src/app/api/exams/[id]/route.ts` (start an exam
attempt).  `shuffle` stands for the in-place `sort(() => Math.random() -
0.5)` applied when `exam.shuffleQuestions` is set: an arbitrary reordering
of the already stripped question views. -/
def startAttempt (db : DB) (user : Option UserView) (examId : Nat) (now : Int)
    (ip ua : String) (shuffle : List QuestionView → List QuestionView) :
    StartResponse × DB :=
  match user with
  | none => (⟨403, false, "Student access required", none, none⟩, db)
  | some u =>
    if u.role ≠ Role.student then
      (⟨403, false, "Student access required", none, none⟩, db)
    else
      match examFindById db examId with
      | none => (⟨404, false, "Exam not found", none, none⟩, db)
      | some exam =>
        if ¬ exam.isActive then
          (⟨400, false, "This exam is not active", none, none⟩, db)
        else if now < exam.startTime then
          (⟨400, false, "Exam has not started yet", none, none⟩, db)
        else if exam.endTime < now then
          (⟨400, false, "Exam has ended", none, none⟩, db)
        else
          match findByStudentAndExam db u.id examId with
          | some existingAttempt =>
            (⟨400, false, "You have already taken this exam",
              some existingAttempt.id, none⟩, db)
          | none =>
            let inserted := createAttempt db examId u.id now ip ua
            let db1 := inserted.1
            let attemptId := inserted.2
            let examQuestions :=
              (questionsFindByExam db1 examId).map stripQuestion
            let examQuestions :=
              if exam.shuffleQuestions then shuffle examQuestions
              else examQuestions
            (⟨200, true, "Exam attempt started successfully",
              some attemptId, some examQuestions⟩, db1)

/-- The accumulator of the scoring loop in the PUT handler (lines 255-292 of
`src/app/api/exams/[id]/route.ts`): running totals plus the `exam_answers`
rows written so far, in write order. -/
structure ScoreState where
  totalScore : Nat
  totalPoints : Nat
  correctAnswers : Nat
  wrongAnswers : Nat
  skippedAnswers : Nat
  rows : List AnswerRow
deriving Repr

/-- One iteration of the scoring loop: `totalPoints += question.points`;
a missing (`undefined`) or empty-string answer is recorded as skipped with
an empty answer row and zero points; otherwise the submitted value's
`toString()` is compared (strictly) with `question.correctAnswer` and the
full weight is earned exactly on match.  Per-question time is always
written as 0. -/
def scoreQuestion (answers : Nat → Option JsVal) (attemptId : Nat)
    (st : ScoreState) (q : Question) : ScoreState :=
  let tp := st.totalPoints + q.points
  match answers q.id with
  | none =>
    { st with totalPoints := tp, skippedAnswers := st.skippedAnswers + 1,
              rows := st.rows ++ [⟨attemptId, q.id, "", false, 0, 0⟩] }
  | some v =>
    if v = JsVal.str "" then
      { st with totalPoints := tp, skippedAnswers := st.skippedAnswers + 1,
                rows := st.rows ++ [⟨attemptId, q.id, "", false, 0, 0⟩] }
    else
      let isCorrect := v.toStr = q.correctAnswer
      let pointsEarned := if isCorrect then q.points else 0
      { totalScore := st.totalScore + pointsEarned,
        totalPoints := tp,
        correctAnswers := st.correctAnswers + (if isCorrect then 1 else 0),
        wrongAnswers := st.wrongAnswers + (if isCorrect then 0 else 1),
        skippedAnswers := st.skippedAnswers,
        rows := st.rows ++ [⟨attemptId, q.id, v.toStr, isCorrect, pointsEarned, 0⟩] }

/-- The whole scoring loop over the exam's questions. -/
def runScore (answers : Nat → Option JsVal) (attemptId : Nat)
    (questions : List Question) : ScoreState :=
  questions.foldl (scoreQuestion answers attemptId) ⟨0, 0, 0, 0, 0, []⟩

/-- `percentage = totalPoints > 0 ? (totalScore / totalPoints) * 100 : 0`
(line 294), in exact arithmetic. -/
def computePercentage (totalScore totalPoints : Nat) : ℚ :=
  if 0 < totalPoints then ((totalScore : ℚ) / (totalPoints : ℚ)) * 100 else 0

/-- `passed = percentage >= exam.passingScore` (line 295). -/
def computePassed (passingScore percentage : ℚ) : Bool :=
  passingScore ≤ percentage

/-- `getGrade` from `src/app/api/exams/[id]/route.ts` lines 353-359. -/
def getGrade (percentage : ℚ) : String :=
  if 90 ≤ percentage then "A"
  else if 80 ≤ percentage then "B"
  else if 70 ≤ percentage then "C"
  else if 60 ≤ percentage then "D"
  else "E"

/-- `Math.round(percentage * 100) / 100` (line 333): round to 2 decimals. -/
def roundTo2 (p : ℚ) : ℚ := ((round (p * 100) : ℤ) : ℚ) / 100

/-- The data object of a successful submit response (lines 329-339). -/
structure SubmitData where
  resultId : Nat
  score : Nat
  totalPoints : Nat
  percentage : ℚ
  grade : String
  passed : Bool
  correctAnswers : Nat
  wrongAnswers : Nat
  skippedAnswers : Nat
deriving DecidableEq, Repr

/-- Response of `PUT /api/exams/[id]` (submit attempt). -/
structure SubmitResponse where
  status : Nat
  success : Bool
  message : String
  data : Option SubmitData
deriving DecidableEq, Repr

/-- Persist the scoring loop's answer rows one statement at a time,
returning the final state and the state after each insert (the loop issues
one `createAnswer.run` per question). -/
def writeAnswers (db : DB) : List AnswerRow → DB × List DB
  | [] => (db, [])
  | r :: rs =>
    let db1 := createAnswer db r
    let rest := writeAnswers db1 rs
    (rest.1, db1 :: rest.2)

/-- The PUT handler of `src/app/api/exams/[id]/route.ts` (submit an exam
attempt).  The result is `(response, final state, trace)`, where the trace
lists the store states after each of the handler's writes in order: one per
answer insert, one after `updateAttempt` (status → `completed`), one after
`createResult`.  The attempt update and the result insert are two separate
prepared statements; no transaction wraps them.  A JSON body with falsy
`attemptId` (absent or 0) or absent `answers` is rejected up front.  The
`examFindById = none` case models the uncaught `exam.passingScore` access on
`undefined` (line 295), which the catch block turns into a 500 — by then the
answer rows are already written. -/
def submitAttempt (db : DB) (user : Option UserView) (examId : Nat)
    (attemptId : Option Nat) (answers : Option (Nat → Option JsVal))
    (timeSpent : Option Nat) (now : Int) : SubmitResponse × DB × List DB :=
  match user with
  | none => (⟨403, false, "Student access required", none⟩, db, [])
  | some u =>
    if u.role ≠ Role.student then
      (⟨403, false, "Student access required", none⟩, db, [])
    else
      match attemptId, answers with
      | some aid, some ans =>
        if aid = 0 then
          (⟨400, false, "Attempt ID and answers are required", none⟩, db, [])
        else
          match attemptFindById db aid with
          | none => (⟨400, false, "Invalid attempt", none⟩, db, [])
          | some attempt =>
            if attempt.studentId ≠ u.id ∨ attempt.examId ≠ examId then
              (⟨400, false, "Invalid attempt", none⟩, db, [])
            else if attempt.status ≠ AttStatus.in_progress then
              (⟨400, false, "Attempt already completed", none⟩, db, [])
            else
              let questions := questionsFindByExam db examId
              let st := runScore ans aid questions
              let written := writeAnswers db st.rows
              let db1 := written.1
              match examFindById db examId with
              | none => (⟨500, false, "Failed to submit exam", none⟩, db1, written.2)
              | some exam =>
                let percentage := computePercentage st.totalScore st.totalPoints
                let passed := computePassed exam.passingScore percentage
                let grade := getGrade percentage
                let ts := timeSpent.getD 0
                let db2 := updateAttempt db1 now AttStatus.completed st.totalScore
                  st.totalPoints percentage ts aid
                let created := createResult db2 aid u.id examId st.totalScore
                  st.totalPoints percentage grade passed ts st.correctAnswers
                  st.wrongAnswers st.skippedAnswers
                  (if passed then "Selamat! Anda lulus ujian ini."
                   else "Maaf, Anda belum lulus ujian ini. Silakan belajar lebih giat.")
                let db3 := created.1
                (⟨200, true, "Exam submitted successfully",
                  some ⟨created.2, st.totalScore, st.totalPoints,
                    roundTo2 percentage, grade, passed, st.correctAnswers,
                    st.wrongAnswers, st.skippedAnswers⟩⟩,
                  db3, written.2 ++ [db2, db3])
      | _, _ =>
        (⟨400, false, "Attempt ID and answers are required", none⟩, db, [])

/-- The spec's invariant "A Result exists iff its Attempt is `completed`". -/
def resultIffCompleted (db : DB) : Prop :=
  ∀ a ∈ db.attempts,
    (a.status = AttStatus.completed ↔ ∃ r ∈ db.results, r.attemptId = a.id)

/-- Executable form of `resultIffCompleted`. -/
def resultIffCompletedB (db : DB) : Bool :=
  db.attempts.all (fun a =>
    decide (a.status = AttStatus.completed) =
      db.results.any (fun r => r.attemptId = a.id))

/-- An attempt counting against the "one attempt per (student, exam) pair"
invariant: neither `abandoned` nor `time_out`. -/
def nonAbandoned (a : Attempt) : Bool :=
  a.status ≠ AttStatus.abandoned ∧ a.status ≠ AttStatus.time_out

/-- The read phase of the start-attempt handler (line 139 of
`src/app/api/exams/[id]/route.ts`), as its own database operation: the
duplicate check is this SELECT, issued separately from the INSERT at line
154 (`createAttempt`). -/
def startCheck (db : DB) (studentId examId : Nat) : Option Attempt :=
  findByStudentAndExam db studentId examId

/-- `n` start-attempt requests for the same student and exam executed one
after the other (each request's check and insert run back to back). -/
def runStarts (db : DB) (u : UserView) (examId : Nat) (now : Int)
    (ip ua : String) (sh : List QuestionView → List QuestionView) :
    Nat → List StartResponse × DB
  | 0 => ([], db)
  | n + 1 =>
    let step := startAttempt db (some u) examId now ip ua sh
    let rest := runStarts step.2 u examId now ip ua sh n
    (step.1 :: rest.1, rest.2)

/-- A question counts as skipped when the submitted answer is missing
(`undefined`) or the empty string — the condition at line 265. -/
def isSkipped (answers : Nat → Option JsVal) (q : Question) : Bool :=
  match answers q.id with
  | none => true
  | some v => v = JsVal.str ""

/-- The points one question contributes to `totalScore`: zero when skipped,
the full weight exactly when the submitted value's string form equals the
canonical correct answer, zero otherwise. -/
def awardedPoints (answers : Nat → Option JsVal) (q : Question) : Nat :=
  match answers q.id with
  | none => 0
  | some v =>
    if v = JsVal.str "" then 0
    else if v.toStr = q.correctAnswer then q.points else 0

/-! Concrete states used by witnesses and counterexamples. -/

/-- A stored student account. -/
def cAlice : UserRec :=
  ⟨1, "alice", "alice@school.com", "HASH", Role.student, "Alice", none, none⟩

/-- A one-user store for the login and registration examples. -/
def cAuthDB : DB := ⟨[cAlice], [], [], [], [], [], 2, 1, 1⟩

/-- The student identity taking the example exam. -/
def cStudent : UserView :=
  ⟨1, "siswa1", "siswa1@school.com", Role.student, "Andi Wijaya", some "10A", none⟩

/-- An active exam owned by teacher 2, window `[0, 1000]`, passing score
70. -/
def cExam : Exam :=
  ⟨1, "Ujian Matematika", "Aljabar dasar", "Matematika", 2, 90, 1, 70, 0, 1000,
    true, true, false⟩

/-- The exam's single question, worth 10 points, correct answer `"1"`. -/
def cQuestion : Question :=
  ⟨1, 1, "Hasil dari 2x + 3 = 9 adalah?", QType.multiple_choice,
    ["x = 2", "x = 3", "x = 4", "x = 6"], "1", 10, none, none, 1⟩

/-- Store with the example exam and question and no attempts. -/
def cExamDB : DB := ⟨[], [cExam], [cQuestion], [], [], [], 1, 1, 1⟩

/-- An abandoned attempt by student 1 on exam 1. -/
def cAbandoned : Attempt :=
  ⟨1, 1, 1, 0, none, AttStatus.abandoned, none, none, none, 0, "ip", "ua"⟩

/-- An in-progress attempt by student 1 on exam 1. -/
def cInProgress : Attempt :=
  ⟨1, 1, 1, 0, none, AttStatus.in_progress, none, none, none, 0, "ip", "ua"⟩

/-- A completed attempt by student 1 on exam 1. -/
def cCompleted : Attempt :=
  ⟨1, 1, 1, 0, some 600, AttStatus.completed, some 10, some 10, some 100, 600,
    "ip", "ua"⟩

/-- The example store whose only attempt for the pair is abandoned. -/
def cExamDBAbandoned : DB := { cExamDB with attempts := [cAbandoned], nextAttemptId := 2 }

/-- The example store with an in-progress attempt (id 1). -/
def cExamDBInProgress : DB := { cExamDB with attempts := [cInProgress], nextAttemptId := 2 }

/-- The example store with a completed attempt (id 1) and its result row. -/
def cExamDBCompleted : DB :=
  ⟨[], [cExam], [cQuestion], [cCompleted],
    [],
    [⟨1, 1, 1, 1, 10, 10, 100, "A", true, 600, 1, 0, 0, "Selamat! Anda lulus ujian ini."⟩],
    1, 2, 2⟩

/-- A submitted answers map: question 1 answered `"1"` (correct). -/
def cAnswers : Nat → Option JsVal := fun i => if i = 1 then some (JsVal.str "1") else none

/-- A valid registration body colliding with nothing in `cAuthDB`. -/
def cRegister : RegisterData :=
  ⟨"newuser1", "new@user.com", "abc123", Role.student, "New User", none, none⟩

end ExamApp

namespace ExamApp

/-! Helper lemmas about the embedded queries. -/

theorem findByStudentAndExam_eq_none_iff (db : DB) (sid eid : Nat) :
    findByStudentAndExam db sid eid = none ↔
      ∀ a ∈ db.attempts, ¬ (a.studentId = sid ∧ a.examId = eid) := by
  unfold findByStudentAndExam
  rw [List.head?_eq_none_iff, List.filter_eq_nil_iff]
  simp

theorem findByStudentAndExam_eq_some (db : DB) (sid eid : Nat) (a : Attempt)
    (h : findByStudentAndExam db sid eid = some a) :
    a ∈ db.attempts ∧ a.studentId = sid ∧ a.examId = eid := by
  unfold findByStudentAndExam at h
  cases hl : (db.attempts.filter (fun a => a.studentId = sid ∧ a.examId = eid)) with
  | nil => rw [hl] at h; simp at h
  | cons x xs =>
    rw [hl] at h
    simp at h
    subst h
    have hx : x ∈ db.attempts.filter (fun a => a.studentId = sid ∧ a.examId = eid) := by
      rw [hl]; exact List.mem_cons_self x xs
    have := List.mem_filter.mp hx
    simpa using this

/-- C7: `canManageExam` is true exactly for admins (any ownership) and for a
teacher whose id equals the exam's owner id; every other combination —
other teachers, all students, a missing owner id — yields false. -/
theorem canManageExam_spec (u : UserView) (teacherId : Option Nat) :
    canManageExam u teacherId = true ↔
      (u.role = Role.admin ∨ (u.role = Role.teacher ∧ teacherId = some u.id)) := by
  unfold canManageExam isAdmin isTeacher
  cases hr : u.role <;> cases teacherId <;> simp [hr]

/-- C9: a login with an unknown username and a login with a known username
but wrong password produce the same `authenticateUser` response — the
generic "Invalid username or password" failure — and `handleLogin` wraps
both in the same HTTP 401 reply, so the caller cannot tell which field was
wrong. -/
theorem login_failures_indistinguishable
    (db : DB) (cmp : String → String → Bool) (u1 p1 u2 p2 : String)
    (user2 : UserRec)
    (h1u : u1 ≠ "") (h1p : p1 ≠ "") (h2u : u2 ≠ "") (h2p : p2 ≠ "")
    (hunknown : findByUsername db u1 = none)
    (hfound : findByUsername db u2 = some user2)
    (hwrong : cmp p2 user2.password = false) :
    authenticateUser db cmp u1 p1 = authenticateUser db cmp u2 p2 ∧
    authenticateUser db cmp u1 p1 =
      ⟨false, "Invalid username or password", none, none⟩ ∧
    handleLogin db cmp u1 p1 = handleLogin db cmp u2 p2 ∧
    (handleLogin db cmp u1 p1).1 = 401 := by
  unfold handleLogin authenticateUser
  simp [h1u, h1p, h2u, h2p, hunknown, hfound, hwrong]

/-- Witness for C9 at a concrete store: unknown user "bob" and known user
"alice" with a failing password comparison get equal responses. -/
theorem login_failures_indistinguishable_witness :
    authenticateUser cAuthDB (fun _ _ => false) "bob" "pw1" =
      authenticateUser cAuthDB (fun _ _ => false) "alice" "pw2" :=
  (login_failures_indistinguishable cAuthDB (fun _ _ => false) "bob" "pw1"
    "alice" "pw2" cAlice (by decide) (by decide) (by decide) (by decide)
    (by decide) (by decide) (by decide)).1

/-- C10: a registration whose username, email and password pass format
validation and collide with no stored user succeeds (HTTP 200), stores a
user with exactly the role given in the request body, and the register
branch's outcome is the same whatever Authorization header or cookie the
caller presents — the handler never consults them. -/
theorem register_needs_no_auth
    (db : DB) (hash : String → String) (d : RegisterData)
    (hu : usernameErrors d.username = [])
    (he : validateEmail d.email = true)
    (hp : passwordErrors d.password = [])
    (hnu : findByUsername db d.username = none)
    (hne : findByEmail db d.email = none) :
    (∀ t1 t2 t1' t2' : Option String,
      postRegister t1 t2 db hash d = postRegister t1' t2' db hash d) ∧
    (postRegister none none db hash d).1.success = true ∧
    (postRegister none none db hash d).1.status = 200 ∧
    ∃ u ∈ (postRegister none none db hash d).2.users,
      u.username = d.username ∧ u.role = d.role := by
  refine ⟨fun _ _ _ _ => rfl, ?_⟩
  unfold postRegister handleRegister
  simp [hu, he, hp, hnu, hne]
  exact ⟨⟨db.nextUserId, d.username, d.email, hash d.password, d.role, d.fullName,
    d.cls, d.subject⟩, Or.inr rfl, rfl, rfl⟩

/-- Witness for C10: the concrete registration `cRegister` against
`cAuthDB` succeeds without any token. -/
theorem register_needs_no_auth_witness :
    (postRegister none none cAuthDB (fun s => s) cRegister).1.success = true :=
  (register_needs_no_auth cAuthDB (fun s => s) cRegister (by decide) (by decide)
    (by decide) (by decide) (by decide)).2.1

/-! Scoring-loop characterization (C2). -/

theorem scoreQuestion_totalPoints (ans : Nat → Option JsVal) (aid : Nat)
    (st : ScoreState) (q : Question) :
    (scoreQuestion ans aid st q).totalPoints = st.totalPoints + q.points := by
  unfold scoreQuestion
  cases h : ans q.id with
  | none => rfl
  | some v => by_cases hv : v = JsVal.str "" <;> simp [hv]

theorem scoreQuestion_totalScore (ans : Nat → Option JsVal) (aid : Nat)
    (st : ScoreState) (q : Question) :
    (scoreQuestion ans aid st q).totalScore = st.totalScore + awardedPoints ans q := by
  unfold scoreQuestion awardedPoints
  cases h : ans q.id with
  | none => simp
  | some v => by_cases hv : v = JsVal.str "" <;> simp [hv]

theorem scoreQuestion_skipped (ans : Nat → Option JsVal) (aid : Nat)
    (st : ScoreState) (q : Question) :
    (scoreQuestion ans aid st q).skippedAnswers =
      st.skippedAnswers + (if isSkipped ans q then 1 else 0) := by
  unfold scoreQuestion isSkipped
  cases h : ans q.id with
  | none => simp
  | some v => by_cases hv : v = JsVal.str "" <;> simp [hv]

theorem foldl_score_totalPoints (ans : Nat → Option JsVal) (aid : Nat)
    (qs : List Question) :
    ∀ st : ScoreState, (List.foldl (scoreQuestion ans aid) st qs).totalPoints =
      st.totalPoints + (qs.map (fun q => q.points)).sum := by
  induction qs with
  | nil => intro st; simp
  | cons q qs ih =>
    intro st
    simp only [List.foldl_cons, List.map_cons, List.sum_cons, ih,
      scoreQuestion_totalPoints]
    omega

theorem foldl_score_totalScore (ans : Nat → Option JsVal) (aid : Nat)
    (qs : List Question) :
    ∀ st : ScoreState, (List.foldl (scoreQuestion ans aid) st qs).totalScore =
      st.totalScore + (qs.map (awardedPoints ans)).sum := by
  induction qs with
  | nil => intro st; simp
  | cons q qs ih =>
    intro st
    simp only [List.foldl_cons, List.map_cons, List.sum_cons, ih,
      scoreQuestion_totalScore]
    omega

theorem foldl_score_skipped (ans : Nat → Option JsVal) (aid : Nat)
    (qs : List Question) :
    ∀ st : ScoreState, (List.foldl (scoreQuestion ans aid) st qs).skippedAnswers =
      st.skippedAnswers + qs.countP (isSkipped ans) := by
  induction qs with
  | nil => intro st; simp
  | cons q qs ih =>
    intro st
    simp only [List.foldl_cons, List.countP_cons, ih, scoreQuestion_skipped]
    split <;> omega

theorem getGrade_A_iff (p : ℚ) : getGrade p = "A" ↔ 90 ≤ p := by
  unfold getGrade
  split_ifs with h1 h2 h3 h4
  · exact iff_of_true rfl h1
  all_goals exact iff_of_false (by decide) h1

theorem getGrade_B_iff (p : ℚ) : getGrade p = "B" ↔ 80 ≤ p ∧ p < 90 := by
  unfold getGrade
  split_ifs with h1 h2 h3 h4
  · exact iff_of_false (by decide) (by rintro ⟨-, hb⟩; linarith)
  · exact iff_of_true rfl ⟨h2, not_le.mp h1⟩
  all_goals exact iff_of_false (by decide) (by rintro ⟨hb, -⟩; exact h2 hb)

theorem getGrade_C_iff (p : ℚ) : getGrade p = "C" ↔ 70 ≤ p ∧ p < 80 := by
  unfold getGrade
  split_ifs with h1 h2 h3 h4
  · exact iff_of_false (by decide) (by rintro ⟨-, hb⟩; linarith)
  · exact iff_of_false (by decide) (by rintro ⟨-, hb⟩; linarith)
  · exact iff_of_true rfl ⟨h3, not_le.mp h2⟩
  all_goals exact iff_of_false (by decide) (by rintro ⟨hc, -⟩; exact h3 hc)

theorem getGrade_D_iff (p : ℚ) : getGrade p = "D" ↔ 60 ≤ p ∧ p < 70 := by
  unfold getGrade
  split_ifs with h1 h2 h3 h4
  · exact iff_of_false (by decide) (by rintro ⟨-, hb⟩; linarith)
  · exact iff_of_false (by decide) (by rintro ⟨-, hb⟩; linarith)
  · exact iff_of_false (by decide) (by rintro ⟨-, hb⟩; linarith)
  · exact iff_of_true rfl ⟨h4, not_le.mp h3⟩
  · exact iff_of_false (by decide) (by rintro ⟨hd, -⟩; exact h4 hd)

theorem getGrade_E_iff (p : ℚ) : getGrade p = "E" ↔ p < 60 := by
  unfold getGrade
  split_ifs with h1 h2 h3 h4
  · exact iff_of_false (by decide) (by intro hb; linarith)
  · exact iff_of_false (by decide) (by intro hb; linarith)
  · exact iff_of_false (by decide) (by intro hb; linarith)
  · exact iff_of_false (by decide) (by intro hb; linarith)
  · exact iff_of_true rfl (not_le.mp h4)

/-- C2: the submit-attempt scoring.  The loop's total score is the sum of
the per-question awards, where a question with a missing or empty-string
answer contributes zero (and is counted in `skippedAnswers`), and an
answered question earns its full weight exactly when the submitted value's
string form equals the canonical correct-answer string; `totalPoints` sums
all question weights; the percentage is `100·totalScore/totalPoints` (0
when `totalPoints = 0`); `passed` holds iff the percentage reaches the
passing score; and the grade letter has inclusive lower bounds 90/80/70/60
for A/B/C/D, with E below. -/
theorem submit_scoring_spec (ans : Nat → Option JsVal) (aid : Nat)
    (qs : List Question) (p : ℚ) :
    (runScore ans aid qs).totalPoints = (qs.map (fun q => q.points)).sum ∧
    (runScore ans aid qs).totalScore = (qs.map (awardedPoints ans)).sum ∧
    (runScore ans aid qs).skippedAnswers = qs.countP (isSkipped ans) ∧
    (∀ q : Question, isSkipped ans q = true → awardedPoints ans q = 0) ∧
    (∀ (q : Question) (v : JsVal), ans q.id = some v → v ≠ JsVal.str "" →
      awardedPoints ans q = (if v.toStr = q.correctAnswer then q.points else 0)) ∧
    (∀ s t : Nat, computePercentage s t =
      (if t = 0 then 0 else 100 * (s : ℚ) / (t : ℚ))) ∧
    (∀ passingScore pc : ℚ, computePassed passingScore pc = true ↔ passingScore ≤ pc) ∧
    (getGrade p = "A" ↔ 90 ≤ p) ∧
    (getGrade p = "B" ↔ 80 ≤ p ∧ p < 90) ∧
    (getGrade p = "C" ↔ 70 ≤ p ∧ p < 80) ∧
    (getGrade p = "D" ↔ 60 ≤ p ∧ p < 70) ∧
    (getGrade p = "E" ↔ p < 60) := by
  refine ⟨?_, ?_, ?_, ?_, ?_, ?_, ?_, getGrade_A_iff p, getGrade_B_iff p,
    getGrade_C_iff p, getGrade_D_iff p, getGrade_E_iff p⟩
  · simpa using foldl_score_totalPoints ans aid qs ⟨0, 0, 0, 0, 0, []⟩
  · simpa using foldl_score_totalScore ans aid qs ⟨0, 0, 0, 0, 0, []⟩
  · simpa using foldl_score_skipped ans aid qs ⟨0, 0, 0, 0, 0, []⟩
  · intro q hq
    unfold awardedPoints
    unfold isSkipped at hq
    cases h : ans q.id <;> simp [h] at hq ⊢
    simp [hq]
  · intro q v hv hne
    unfold awardedPoints
    simp [hv, hne]
  · intro s t
    unfold computePercentage
    rcases t with _ | t
    · simp
    · have ht : (0 : ℚ) < (t + 1 : Nat) := by positivity
      simp only [Nat.succ_ne_zero, if_false, Nat.zero_lt_succ, if_true]
      field_simp
      ring
  · intro passingScore pc
    unfold computePassed
    exact decide_eq_true_iff

/-! Start-attempt characterization (C1, C3, C5, C6). -/

theorem startAttempt_conflict (db : DB) (u : UserView) (eid : Nat) (now : Int)
    (ip ua : String) (sh : List QuestionView → List QuestionView)
    (exam : Exam) (a : Attempt)
    (hrole : u.role = Role.student)
    (hexam : examFindById db eid = some exam)
    (hact : exam.isActive = true)
    (hs : exam.startTime ≤ now)
    (he : now ≤ exam.endTime)
    (ha : findByStudentAndExam db u.id eid = some a) :
    startAttempt db (some u) eid now ip ua sh =
      (⟨400, false, "You have already taken this exam", some a.id, none⟩, db) := by
  unfold startAttempt
  simp [hrole, hexam, hact, not_lt.mpr hs, not_lt.mpr he, ha]

/-- The row the start-attempt handler inserts. -/
theorem startAttempt_ok (db : DB) (u : UserView) (eid : Nat) (now : Int)
    (ip ua : String) (sh : List QuestionView → List QuestionView)
    (exam : Exam)
    (hrole : u.role = Role.student)
    (hexam : examFindById db eid = some exam)
    (hact : exam.isActive = true)
    (hs : exam.startTime ≤ now)
    (he : now ≤ exam.endTime)
    (hno : findByStudentAndExam db u.id eid = none) :
    startAttempt db (some u) eid now ip ua sh =
      (⟨200, true, "Exam attempt started successfully", some db.nextAttemptId,
        some (if exam.shuffleQuestions then
                sh ((questionsFindByExam db eid).map stripQuestion)
              else (questionsFindByExam db eid).map stripQuestion)⟩,
       { db with
           attempts := db.attempts ++
             [⟨db.nextAttemptId, eid, u.id, now, none, AttStatus.in_progress,
               none, none, none, 0, ip, ua⟩],
           nextAttemptId := db.nextAttemptId + 1 }) := by
  unfold startAttempt createAttempt attemptRowSchemaOk
  simp [hrole, hexam, hact, not_lt.mpr hs, not_lt.mpr he, hno, questionsFindByExam]

/-- C1 (amended): under the role/existence/active/window preconditions, the
start operation answers the "You have already taken this exam" conflict iff
*any* attempt row exists for the (student, exam) pair — its status, abandoned
or timed-out included, is never consulted — and a new `in_progress` attempt
is created only when no attempt row at all exists for the pair. -/
theorem start_conflict_iff_any_attempt (db : DB) (u : UserView) (eid : Nat)
    (now : Int) (ip ua : String) (sh : List QuestionView → List QuestionView)
    (exam : Exam)
    (hrole : u.role = Role.student)
    (hexam : examFindById db eid = some exam)
    (hact : exam.isActive = true)
    (hs : exam.startTime ≤ now)
    (he : now ≤ exam.endTime) :
    (((startAttempt db (some u) eid now ip ua sh).1.status = 400 ∧
      (startAttempt db (some u) eid now ip ua sh).1.message =
        "You have already taken this exam") ↔
      ∃ a ∈ db.attempts, a.studentId = u.id ∧ a.examId = eid) ∧
    ((∀ a ∈ db.attempts, ¬ (a.studentId = u.id ∧ a.examId = eid)) →
      (startAttempt db (some u) eid now ip ua sh).1.success = true ∧
      ∃ a ∈ (startAttempt db (some u) eid now ip ua sh).2.attempts,
        a.studentId = u.id ∧ a.examId = eid ∧ a.status = AttStatus.in_progress) := by
  constructor
  · constructor
    · rintro ⟨hst, -⟩
      cases hfa : findByStudentAndExam db u.id eid with
      | none =>
        rw [startAttempt_ok db u eid now ip ua sh exam hrole hexam hact hs he hfa] at hst
        simp at hst
      | some a =>
        obtain ⟨hmem, hsid, heid⟩ := findByStudentAndExam_eq_some db u.id eid a hfa
        exact ⟨a, hmem, hsid, heid⟩
    · rintro ⟨a, hmem, hsid, heid⟩
      cases hfa : findByStudentAndExam db u.id eid with
      | none =>
        rw [findByStudentAndExam_eq_none_iff] at hfa
        exact absurd ⟨hsid, heid⟩ (hfa a hmem)
      | some b =>
        rw [startAttempt_conflict db u eid now ip ua sh exam b hrole hexam hact hs he hfa]
        exact ⟨rfl, rfl⟩
  · intro hnone
    have hno : findByStudentAndExam db u.id eid = none :=
      (findByStudentAndExam_eq_none_iff db u.id eid).mpr hnone
    rw [startAttempt_ok db u eid now ip ua sh exam hrole hexam hact hs he hno]
    refine ⟨rfl, ⟨⟨db.nextAttemptId, eid, u.id, now, none, AttStatus.in_progress,
      none, none, none, 0, ip, ua⟩, ?_, rfl, rfl, rfl⟩⟩
    simp

/-- Witness for C1: on the attempt-free store `cExamDB`, the start succeeds
and creates an `in_progress` attempt for the pair. -/
theorem start_conflict_iff_any_attempt_witness :
    (startAttempt cExamDB (some cStudent) 1 500 "ip" "ua" (fun l => l)).1.success = true :=
  ((start_conflict_iff_any_attempt cExamDB cStudent 1 500 "ip" "ua" (fun l => l)
    cExam (by decide) (by decide) (by decide) (by decide) (by decide)).2
    (by decide)).1

/-- C1 (counterexample): in the state `cExamDBAbandoned`, whose only attempt
for (student 1, exam 1) is `abandoned`, the claim says a new attempt is
created and the start succeeds; the code instead answers the
"already taken" conflict and leaves the store unchanged. -/
theorem start_blocked_by_abandoned_attempt :
    (cExamDBAbandoned.attempts.all (fun a => a.status = AttStatus.abandoned)) = true ∧
    (startAttempt cExamDBAbandoned (some cStudent) 1 500 "ip" "ua" (fun l => l)).1.success = false ∧
    (startAttempt cExamDBAbandoned (some cStudent) 1 500 "ip" "ua" (fun l => l)).1.message =
      "You have already taken this exam" ∧
    (startAttempt cExamDBAbandoned (some cStudent) 1 500 "ip" "ua" (fun l => l)).2 =
      cExamDBAbandoned := by
  refine ⟨by decide, ?_, ?_, ?_⟩ <;> decide

/-! Submit-attempt rejection and HTTP statuses (C6). -/

theorem submitAttempt_already_completed (db : DB) (u : UserView) (eid aid : Nat)
    (ans : Nat → Option JsVal) (ts : Option Nat) (now : Int) (attempt : Attempt)
    (hrole : u.role = Role.student)
    (haid : aid ≠ 0)
    (hfind : attemptFindById db aid = some attempt)
    (hsid : attempt.studentId = u.id)
    (heid : attempt.examId = eid)
    (hstatus : attempt.status ≠ AttStatus.in_progress) :
    submitAttempt db (some u) eid (some aid) (some ans) ts now =
      (⟨400, false, "Attempt already completed", none⟩, db, []) := by
  unfold submitAttempt
  simp [hrole, haid, hfind, hsid, heid, hstatus]

/-- C6 (amended): both conflicting-state rejections carry HTTP status 400,
not 409 — the start-attempt duplicate ("You have already taken this exam")
and the submit of an attempt that is no longer `in_progress` ("Attempt
already completed"). -/
theorem conflict_statuses_are_400 :
    (∀ (db : DB) (u : UserView) (eid : Nat) (now : Int) (ip ua : String)
        (sh : List QuestionView → List QuestionView) (exam : Exam) (a : Attempt),
      u.role = Role.student → examFindById db eid = some exam →
      exam.isActive = true → exam.startTime ≤ now → now ≤ exam.endTime →
      findByStudentAndExam db u.id eid = some a →
      (startAttempt db (some u) eid now ip ua sh).1.status = 400 ∧
      (startAttempt db (some u) eid now ip ua sh).1.message =
        "You have already taken this exam") ∧
    (∀ (db : DB) (u : UserView) (eid aid : Nat) (ans : Nat → Option JsVal)
        (ts : Option Nat) (now : Int) (attempt : Attempt),
      u.role = Role.student → aid ≠ 0 →
      attemptFindById db aid = some attempt →
      attempt.studentId = u.id → attempt.examId = eid →
      attempt.status ≠ AttStatus.in_progress →
      (submitAttempt db (some u) eid (some aid) (some ans) ts now).1.status = 400 ∧
      (submitAttempt db (some u) eid (some aid) (some ans) ts now).1.message =
        "Attempt already completed") := by
  constructor
  · intro db u eid now ip ua sh exam a hrole hexam hact hs he ha
    rw [startAttempt_conflict db u eid now ip ua sh exam a hrole hexam hact hs he ha]
    exact ⟨rfl, rfl⟩
  · intro db u eid aid ans ts now attempt hrole haid hfind hsid heid hstatus
    rw [submitAttempt_already_completed db u eid aid ans ts now attempt hrole haid
      hfind hsid heid hstatus]
    exact ⟨rfl, rfl⟩

/-- C6 (counterexample): at concrete conflicting states both handlers answer
status 400, not the 409 the claim requires. -/
theorem conflict_statuses_counterexample :
    (startAttempt cExamDBAbandoned (some cStudent) 1 500 "ip" "ua" (fun l => l)).1.status = 400 ∧
    (submitAttempt cExamDBCompleted (some cStudent) 1 (some 1) (some cAnswers)
      (some 100) 600).1.status = 400 ∧
    (400 : Nat) ≠ 409 := by
  refine ⟨by decide, by decide, by decide⟩

/-! Answer-key stripping (C5). -/

/-- C5 (amended): the start-attempt response always strips the
correct-answer field from every question it returns (for any reordering the
shuffle may apply), and the GET response strips it for a student whenever
the `includeAnswers` query parameter is not set; a student's GET with
`includeAnswers=true` is the exception the counterexample exhibits. -/
theorem student_question_views_have_no_answers :
    (∀ (db : DB) (user : Option UserView) (eid : Nat) (now : Int) (ip ua : String)
        (sh : List QuestionView → List QuestionView) (qvs : List QuestionView),
      (∀ (l : List QuestionView) (v : QuestionView), v ∈ sh l → v ∈ l) →
      (startAttempt db user eid now ip ua sh).1.questions = some qvs →
      ∀ v ∈ qvs, v.correctAnswer = none) ∧
    (∀ (db : DB) (u : UserView) (eid : Nat) (includeQuestions : Bool)
        (qvs : List QuestionView),
      u.role = Role.student →
      (getExam db (some u) eid includeQuestions false).questions = some qvs →
      ∀ v ∈ qvs, v.correctAnswer = none) := by
  constructor
  · intro db user eid now ip ua sh qvs hsh
    unfold startAttempt
    repeat' split
    all_goals intro hq v hv
    any_goals (solve | simp at hq)
    · simp only [] at hq
      rw [Option.some.injEq] at hq
      subst hq
      rcases List.mem_map.mp (hsh _ _ hv) with ⟨q, -, hq2⟩
      rw [← hq2]; rfl
    · simp only [] at hq
      rw [Option.some.injEq] at hq
      subst hq
      rcases List.mem_map.mp hv with ⟨q, -, hq2⟩
      rw [← hq2]; rfl
  · intro db u eid includeQuestions qvs hrole
    unfold getExam
    repeat' split
    all_goals intro hq v hv
    any_goals (solve | simp at hq)
    · simp only [] at hq
      rw [Option.some.injEq] at hq
      subst hq
      rcases List.mem_map.mp hv with ⟨q, -, hq2⟩
      rw [← hq2]; rfl
    · exfalso
      rename_i user2 u2 heq1 x2 exam2 heq2 hacc hinc hcond
      injection heq1 with h2
      subst h2
      exact hcond ⟨hrole, by simp⟩

/-- C5 (counterexample): a student's GET with `includeAnswers=true` receives
the full question rows, correct answers included — no review flag or role
check guards the parameter. -/
theorem student_gets_answer_key_via_parameter :
    (getExam cExamDB (some cStudent) 1 true true).questions =
      some [fullQuestion cQuestion] ∧
    (fullQuestion cQuestion).correctAnswer = some "1" := by
  exact ⟨by decide, by decide⟩

/-! The attempt-creation race (C3). -/

theorem runStarts_all_conflict (db : DB) (u : UserView) (eid : Nat) (now : Int)
    (ip ua : String) (sh : List QuestionView → List QuestionView)
    (exam : Exam) (a : Attempt)
    (hrole : u.role = Role.student)
    (hexam : examFindById db eid = some exam)
    (hact : exam.isActive = true)
    (hs : exam.startTime ≤ now)
    (he : now ≤ exam.endTime)
    (ha : findByStudentAndExam db u.id eid = some a) :
    ∀ n, runStarts db u eid now ip ua sh n =
      (List.replicate n ⟨400, false, "You have already taken this exam", some a.id, none⟩, db) := by
  intro n
  induction n with
  | zero => rfl
  | succ n ih =>
    simp only [runStarts]
    rw [startAttempt_conflict db u eid now ip ua sh exam a hrole hexam hact hs he ha]
    rw [ih, List.replicate_succ]

/-- C3 (amended): the `exam_attempts` schema has no uniqueness constraint on
(studentId, examId) — the row-local schema check accepts every row — so
one-success-only holds only when each request's check-then-insert pair runs
without interleaving.  Under that serialized execution, of `n+1` identical
start requests the first succeeds and the remaining `n` all observe the
"already taken" conflict, leaving exactly one attempt row for the pair. -/
theorem serialized_starts_one_success (db : DB) (u : UserView) (eid : Nat)
    (now : Int) (ip ua : String) (sh : List QuestionView → List QuestionView)
    (exam : Exam) (n : Nat)
    (hrole : u.role = Role.student)
    (hexam : examFindById db eid = some exam)
    (hact : exam.isActive = true)
    (hs : exam.startTime ≤ now)
    (he : now ≤ exam.endTime)
    (hno : ∀ a ∈ db.attempts, ¬ (a.studentId = u.id ∧ a.examId = eid)) :
    (∀ row : Attempt, attemptRowSchemaOk row = true) ∧
    (runStarts db u eid now ip ua sh (n + 1)).1.length = n + 1 ∧
    ((runStarts db u eid now ip ua sh (n + 1)).1.head?.map (fun r => r.success)) =
      some true ∧
    (∀ r ∈ (runStarts db u eid now ip ua sh (n + 1)).1.drop 1,
      r.status = 400 ∧ r.success = false ∧
      r.message = "You have already taken this exam") ∧
    ((runStarts db u eid now ip ua sh (n + 1)).2.attempts.filter
      (fun a => a.studentId = u.id ∧ a.examId = eid)).length = 1 := by
  have hnoF : findByStudentAndExam db u.id eid = none :=
    (findByStudentAndExam_eq_none_iff db u.id eid).mpr hno
  have hfilter : db.attempts.filter
      (fun a => decide (a.studentId = u.id ∧ a.examId = eid)) = [] := by
    rw [List.filter_eq_nil_iff]
    intro a ha
    simpa using hno a ha
  set row : Attempt := ⟨db.nextAttemptId, eid, u.id, now, none,
    AttStatus.in_progress, none, none, none, 0, ip, ua⟩ with hrow
  set db1 : DB :=
    { db with
        attempts := db.attempts ++ [row],
        nextAttemptId := db.nextAttemptId + 1 } with hdb1
  have hexam1 : examFindById db1 eid = some exam := hexam
  have hfa1 : findByStudentAndExam db1 u.id eid = some row := by
    unfold findByStudentAndExam
    rw [hdb1]
    simp only [List.filter_append, hfilter]
    simp [hrow]
  have hstep := startAttempt_ok db u eid now ip ua sh exam hrole hexam hact hs he hnoF
  have hrest := runStarts_all_conflict db1 u eid now ip ua sh exam row hrole
    hexam1 hact hs he hfa1 n
  have hrun : runStarts db u eid now ip ua sh (n + 1) =
      ((⟨200, true, "Exam attempt started successfully", some db.nextAttemptId,
        some (if exam.shuffleQuestions then
                sh ((questionsFindByExam db eid).map stripQuestion)
              else (questionsFindByExam db eid).map stripQuestion)⟩ : StartResponse) ::
        List.replicate n ⟨400, false, "You have already taken this exam",
          some row.id, none⟩, db1) := by
    simp only [runStarts]
    rw [hstep]
    simp only []
    rw [hrest]
  refine ⟨fun _ => rfl, ?_, ?_, ?_, ?_⟩
  · rw [hrun]; simp
  · rw [hrun]; rfl
  · rw [hrun]
    intro r hr
    simp only [List.drop_succ_cons, List.drop_zero] at hr
    have := List.eq_of_mem_replicate hr
    subst this
    exact ⟨rfl, rfl, rfl⟩
  · rw [hrun]
    simp only [hdb1, List.filter_append, hfilter]
    simp [hrow]

/-- Witness for C3's amended statement: three serialized start requests on
the attempt-free store give three responses, the first successful. -/
theorem serialized_starts_one_success_witness :
    (runStarts cExamDB cStudent 1 500 "ip" "ua" (fun l => l) 3).1.length = 3 :=
  (serialized_starts_one_success cExamDB cStudent 1 500 "ip" "ua" (fun l => l)
    cExam 2 (by decide) (by decide) (by decide) (by decide) (by decide)
    (by decide)).2.1

/-- C3 (counterexample): the interleaved execution the claim forbids.  Both
requests' duplicate checks (the SELECT of line 139) read the attempt-free
store and see nothing; the persistence layer (`createAttempt`, the plain
INSERT of line 154, constrained only by the row-local schema of
`src/lib/db.ts` lines 71-90) then accepts both inserts, leaving two
non-abandoned attempt rows for the pair — there is no conditional insert or
table-level uniqueness to stop the second writer. -/
theorem interleaved_starts_create_duplicate_rows :
    startCheck cExamDB 1 1 = none ∧
    startCheck cExamDB 1 1 = none ∧
    ((createAttempt (createAttempt cExamDB 1 1 500 "ipA" "uaA").1
        1 1 500 "ipB" "uaB").1.attempts.filter
      (fun a => a.studentId = 1 ∧ a.examId = 1 ∧ nonAbandoned a)).length = 2 ∧
    attemptRowSchemaOk ⟨2, 1, 1, 500, none, AttStatus.in_progress, none, none,
      none, 0, "ipB", "uaB"⟩ = true := by
  refine ⟨by decide, by decide, by decide, rfl⟩

/-! Result/attempt coupling (C4). -/

theorem attemptFindById_eq_some (db : DB) (aid : Nat) (a : Attempt)
    (h : attemptFindById db aid = some a) :
    a ∈ db.attempts ∧ a.id = aid := by
  unfold attemptFindById at h
  cases hl : (db.attempts.filter (fun a => a.id = aid)) with
  | nil => rw [hl] at h; simp at h
  | cons x xs =>
    rw [hl] at h
    simp at h
    subst h
    have hx : x ∈ db.attempts.filter (fun a => a.id = aid) := by
      rw [hl]; exact List.mem_cons_self x xs
    have := List.mem_filter.mp hx
    simpa using this

theorem writeAnswers_fst_attempts (rows : List AnswerRow) :
    ∀ db : DB, ((writeAnswers db rows).1).attempts = db.attempts := by
  induction rows with
  | nil => intro db; rfl
  | cons r rs ih => intro db; simpa [writeAnswers] using ih (createAnswer db r)

theorem writeAnswers_fst_results (rows : List AnswerRow) :
    ∀ db : DB, ((writeAnswers db rows).1).results = db.results := by
  induction rows with
  | nil => intro db; rfl
  | cons r rs ih => intro db; simpa [writeAnswers] using ih (createAnswer db r)

/-- On the success path, the submit handler is the composition: write one
answer row per question, update the attempt to `completed`, insert the
result row — with the trace of states in that order. -/
theorem submitAttempt_ok (db : DB) (u : UserView) (eid aid : Nat)
    (ans : Nat → Option JsVal) (ts : Option Nat) (now : Int)
    (attempt : Attempt) (exam : Exam)
    (hrole : u.role = Role.student)
    (haid : aid ≠ 0)
    (hfind : attemptFindById db aid = some attempt)
    (hsid : attempt.studentId = u.id)
    (heid : attempt.examId = eid)
    (hstatus : attempt.status = AttStatus.in_progress)
    (hexam : examFindById db eid = some exam) :
    submitAttempt db (some u) eid (some aid) (some ans) ts now =
      (let st := runScore ans aid (questionsFindByExam db eid)
       let percentage := computePercentage st.totalScore st.totalPoints
       let passed := computePassed exam.passingScore percentage
       let grade := getGrade percentage
       let written := writeAnswers db st.rows
       let db2 := updateAttempt written.1 now AttStatus.completed st.totalScore
         st.totalPoints percentage (ts.getD 0) aid
       let created := createResult db2 aid u.id eid st.totalScore st.totalPoints
         percentage grade passed (ts.getD 0) st.correctAnswers st.wrongAnswers
         st.skippedAnswers
         (if passed then "Selamat! Anda lulus ujian ini."
          else "Maaf, Anda belum lulus ujian ini. Silakan belajar lebih giat.")
       (⟨200, true, "Exam submitted successfully",
         some ⟨created.2, st.totalScore, st.totalPoints, roundTo2 percentage,
           grade, passed, st.correctAnswers, st.wrongAnswers, st.skippedAnswers⟩⟩,
         created.1, written.2 ++ [db2, created.1])) := by
  unfold submitAttempt
  simp [hrole, haid, hfind, hsid, heid, hstatus, hexam]

/-- C4 (amended): a fully successful submission restores the invariant
"a Result exists iff its Attempt is completed" — the final state satisfies
it whenever the initial state did — but the attempt update and the result
insert are two separate statements, so the handler passes through an
observable intermediate state (the one right after `updateAttempt`) in
which the attempt is already `completed` and no Result exists; a failure of
the result insert would leave exactly that state persisted. -/
theorem submit_result_iff_completed (db : DB) (u : UserView) (eid aid : Nat)
    (ans : Nat → Option JsVal) (ts : Option Nat) (now : Int)
    (attempt : Attempt) (exam : Exam)
    (hrole : u.role = Role.student)
    (haid : aid ≠ 0)
    (hfind : attemptFindById db aid = some attempt)
    (hsid : attempt.studentId = u.id)
    (heid : attempt.examId = eid)
    (hstatus : attempt.status = AttStatus.in_progress)
    (hexam : examFindById db eid = some exam)
    (hinv : resultIffCompleted db) :
    resultIffCompleted (submitAttempt db (some u) eid (some aid) (some ans) ts now).2.1 ∧
    ∃ d ∈ (submitAttempt db (some u) eid (some aid) (some ans) ts now).2.2,
      ¬ resultIffCompleted d := by
  obtain ⟨hmem, hattid⟩ := attemptFindById_eq_some db aid attempt hfind
  have hnores : ∀ r ∈ db.results, r.attemptId ≠ aid := by
    intro r hr hrid
    have h1 := (hinv attempt hmem).mpr ⟨r, hr, by rw [hrid, hattid]⟩
    rw [hstatus] at h1
    exact absurd h1 (by decide)
  rw [submitAttempt_ok db u eid aid ans ts now attempt exam hrole haid hfind
    hsid heid hstatus hexam]
  simp only []
  set st := runScore ans aid (questionsFindByExam db eid) with hst
  set written := writeAnswers db st.rows with hwritten
  set percentage := computePercentage st.totalScore st.totalPoints
  set passed := computePassed exam.passingScore percentage
  set db2 := updateAttempt written.1 now AttStatus.completed st.totalScore
    st.totalPoints percentage (ts.getD 0) aid with hdb2
  have hdb2att : db2.attempts = db.attempts.map (fun a =>
      if a.id = aid then
        { a with
            endTime := some now,
            status := AttStatus.completed,
            score := some st.totalScore,
            totalPoints := some st.totalPoints,
            percentage := some percentage,
            timeSpent := ts.getD 0 }
      else a) := by
    rw [hdb2]
    unfold updateAttempt
    rw [writeAnswers_fst_attempts]
  have hdb2res : db2.results = db.results := by
    rw [hdb2]
    unfold updateAttempt
    simp only []
    rw [writeAnswers_fst_results]
  constructor
  · -- final state: createResult appends the matching row
    intro b hb
    simp only [createResult] at hb ⊢
    rw [hdb2att] at hb
    rcases List.mem_map.mp hb with ⟨a0, ha0, hb0⟩
    by_cases hid : a0.id = aid
    · rw [if_pos hid] at hb0
      constructor
      · intro _
        refine ⟨_, List.mem_append_right _ (List.mem_cons_self _ _), ?_⟩
        rw [← hb0]
        simpa using hid.symm
      · intro _
        rw [← hb0]
    · rw [if_neg hid] at hb0
      subst hb0
      rw [hdb2res]
      constructor
      · intro hc
        rcases (hinv a0 ha0).mp hc with ⟨r, hr, hrid⟩
        exact ⟨r, List.mem_append_left _ hr, hrid⟩
      · rintro ⟨r, hr, hrid⟩
        rcases List.mem_append.mp hr with hr | hr
        · exact (hinv a0 ha0).mpr ⟨r, hr, hrid⟩
        · exfalso
          simp at hr
          rw [hr] at hrid
          exact hid (by simpa using hrid.symm)
  · -- the state right after updateAttempt violates the invariant
    refine ⟨db2, ?_, ?_⟩
    · exact List.mem_append_right _ (List.mem_cons_self _ _)
    · intro hbad
      have hmem2 : ({ attempt with
          endTime := some now,
          status := AttStatus.completed,
          score := some st.totalScore,
          totalPoints := some st.totalPoints,
          percentage := some percentage,
          timeSpent := ts.getD 0 } : Attempt) ∈ db2.attempts := by
        rw [hdb2att]
        refine List.mem_map.mpr ⟨attempt, hmem, ?_⟩
        rw [if_pos hattid]
      rcases (hbad _ hmem2).mp rfl with ⟨r, hr, hrid⟩
      rw [hdb2res] at hr
      exact hnores r hr (by simpa [hattid] using hrid)

/-- Witness for C4's amended statement: the concrete successful submission
against `cExamDBInProgress` passes through a state with a completed attempt
and no result row. -/
theorem submit_result_iff_completed_witness :
    ∃ d ∈ (submitAttempt cExamDBInProgress (some cStudent) 1 (some 1)
      (some cAnswers) (some 100) 600).2.2, ¬ resultIffCompleted d :=
  (submit_result_iff_completed cExamDBInProgress cStudent 1 1 cAnswers
    (some 100) 600 cInProgress cExam (by decide) (by decide) (by decide)
    (by decide) (by decide) (by decide) (by decide)
    (by unfold resultIffCompleted; decide)).2

/-- C4 (counterexample): on the concrete successful submission the write
trace contains an observable state (after `updateAttempt`, before
`createResult`) whose attempt is `completed` while no Result row exists —
the two writes are separate statements, not one transaction. -/
theorem submit_intermediate_state_violates_invariant :
    (submitAttempt cExamDBInProgress (some cStudent) 1 (some 1) (some cAnswers)
      (some 100) 600).1.success = true ∧
    ((submitAttempt cExamDBInProgress (some cStudent) 1 (some 1) (some cAnswers)
      (some 100) 600).2.2).any (fun d => !resultIffCompletedB d) = true := by
  exact ⟨by decide, by decide⟩

end ExamApp
